import Mathlib

/-!
Verification of the BehaviorTree.CPP core node contract
(`include/behavior_tree_core/tree_node.h`).

The header declares the `NodeStatus` vocabulary together with its string
conversion, the `TreeNode` synchronized status register with its
tick/wait/notify protocol, the `Signal` notification bus, and the
`NodeBuilder` factory contract.  The enumerations and `toStr` are fully
inline in the header and are embedded directly.  The member-function
bodies and the `Signal` template live in translation units that are not
part of this tree, so they are modelled from the specification, each
such definition carrying a doc comment that says so.  Concurrency is
embedded as an explicit trace semantics: an execution is a list of
atomic actions (the operations the spec declares to be linearized under
the node-local lock), and a run folds the actions over the node state
while logging the notification-bus publications each action issues.
-/

namespace BTCore

/-- The `NodeStatus` enumeration from `tree_node.h` (lines 85-92):
IDLE, RUNNING, SUCCESS, FAILURE, EXIT, in declaration order. -/
inductive NodeStatus
  | IDLE
  | RUNNING
  | SUCCESS
  | FAILURE
  | EXIT
deriving DecidableEq, Repr

/-- A status is terminal when it is neither IDLE nor RUNNING
(spec glossary: "Terminal status: SUCCESS, FAILURE, or EXIT"). -/
def isTerminal : NodeStatus → Bool
  | NodeStatus.IDLE => false
  | NodeStatus.RUNNING => false
  | _ => true

/-- `toStr(const BT::NodeStatus&)` from `tree_node.h` lines 94-109:
a switch with cases for SUCCESS, FAILURE, RUNNING and IDLE, and a
`default` branch returning "Undefined" (which is what EXIT falls into). -/
def toStrNodeStatus : NodeStatus → String
  | NodeStatus.SUCCESS => "SUCCESS"
  | NodeStatus.FAILURE => "FAILURE"
  | NodeStatus.RUNNING => "RUNNING"
  | NodeStatus.IDLE => "IDLE"
  | _ => "Undefined"

/-- `operator<<(std::ostream&, const BT::NodeStatus&)` from `tree_node.h`
lines 112-116: writes `toStr(status)` to the stream.  The stream is
embedded as the string accumulated so far. -/
def streamNodeStatus (os : String) (status : NodeStatus) : String :=
  os ++ toStrNodeStatus status

/-- Modelled from the spec: the `Signal` notification bus declared in
`signal.h` (not under the source tree; only `tree_node.h` includes it).
Spec section 4.2 and section 9: "explicit subscriber registry keyed by a
generation-stamped token; releasing the token removes the entry under
the same lock used for publish".  `subs` is the registry of live
subscriber tokens in subscription order; `nextId` is the generation
stamp handed to the next subscriber. -/
structure Signal where
  nextId : Nat
  subs : List Nat
deriving DecidableEq, Repr

/-- A freshly constructed bus: no subscribers, generation stamp 0. -/
def Signal.init : Signal := ⟨0, []⟩

/-- Modelled from the spec: `Signal::subscribe(callback) -> handle`
(spec 4.2).  Registers a fresh token at the end of the registry and
returns the new bus together with the token that stands for the
subscription handle. -/
def Signal.subscribe (b : Signal) : Signal × Nat :=
  (⟨b.nextId + 1, b.subs ++ [b.nextId]⟩, b.nextId)

/-- Modelled from the spec: releasing a subscription handle
(spec 4.2: "dropping/releasing the handle deterministically unregisters
the callback"): the token is removed from the registry. -/
def Signal.release (b : Signal) (id : Nat) : Signal :=
  ⟨b.nextId, b.subs.filter (fun x => x ≠ id)⟩

/-- Modelled from the spec: `publish(args...)` "invokes all
currently-registered callbacks; ordering across callbacks follows
subscription order ... e.g. by snapshotting the subscriber set before
invoking" (spec 4.2).  The value is the snapshot: the tokens whose
callbacks this publication invokes, in order. -/
def Signal.publishRecipients (b : Signal) : List Nat := b.subs

/-- The state of a `TreeNode` (class declared in `tree_node.h` lines
154-210): its name, its synchronized status register, and its owned
notification bus `state_change_signal_`. -/
structure NodeState where
  name : String
  status : NodeStatus
  bus : Signal
deriving DecidableEq, Repr

/-- Modelled from the spec: the constructor `TreeNode(std::string name)`
(body not under the source tree).  Spec section 3: "a TreeNode is
constructed with status IDLE". -/
def mkTreeNode (name : String) : NodeState :=
  ⟨name, NodeStatus.IDLE, Signal.init⟩

/-- Modelled from the spec: `TreeNode::isHalted()` (body not under the
source tree).  Spec 4.1: "returns true iff current status is IDLE.
Pure query, lock-protected read." -/
def isHalted (n : NodeState) : Bool := n.status == NodeStatus.IDLE

/-- A notification-bus publication: the transition it reports and the
snapshot of subscriber tokens whose callbacks it invokes. -/
structure Event where
  prev : NodeStatus
  newStatus : NodeStatus
  recipients : List Nat
deriving DecidableEq, Repr

/-- Modelled from the spec: `TreeNode::setStatus(NodeStatus)` (body not
under the source tree).  Spec 4.1: lock-protected mutator that
"performs the same notify+publish sequence as executeTick's post-tick
step"; it stores the new status, wakes the waiters, and issues one
publication `(previous status, new status)` to the bus (fired
unconditionally on every call, per spec section 9). -/
def setStatus (n : NodeState) (s : NodeStatus) : NodeState × Event :=
  ({ n with status := s }, ⟨n.status, s, n.bus.publishRecipients⟩)

/-- Modelled from the spec: `TreeNode::executeTick()` (body not under
the source tree).  Spec 4.1: invoke the subclass `tick()` with no lock
held; capture the previous status; update the status field under the
lock and wake waiters; publish `(previous, new)` outside the lock;
return the new status.  The subclass `tick()` result is a parameter
since `tick` is pure-virtual. -/
def executeTick (n : NodeState) (tickResult : NodeStatus) :
    NodeState × Event × NodeStatus :=
  ({ n with status := tickResult },
   ⟨n.status, tickResult, n.bus.publishRecipients⟩,
   tickResult)

/-- The atomic operations of the node contract, as linearized by the
node-local lock (spec section 5): a `setStatus` call, an `executeTick`
call whose subclass `tick()` returned the given status, a
`subscribeToStatusChange` call, and the release of a subscription
handle. -/
inductive Action
  | setSt (s : NodeStatus)
  | tickAct (result : NodeStatus)
  | subscribeAct
  | releaseAct (id : Nat)
deriving DecidableEq, Repr

/-- One atomic step of the node: the successor state and the list of
publications the action issues (empty for subscribe/release, a single
event for setStatus/executeTick). -/
def step (n : NodeState) : Action → NodeState × List Event
  | Action.setSt s =>
      let r := setStatus n s
      (r.1, [r.2])
  | Action.tickAct s =>
      let r := executeTick n s
      (r.1, [r.2.1])
  | Action.subscribeAct =>
      (⟨n.name, n.status, (n.bus.subscribe).1⟩, [])
  | Action.releaseAct id =>
      (⟨n.name, n.status, n.bus.release id⟩, [])

/-- Running an interleaving: fold the actions over the node state,
concatenating the publications in program order. -/
def run (n : NodeState) : List Action → NodeState × List Event
  | [] => (n, [])
  | a :: rest =>
      let r := step n a
      let r2 := run r.1 rest
      (r2.1, r.2 ++ r2.2)

/-- A run started from a freshly constructed node. -/
def runFrom (acts : List Action) : NodeState × List Event :=
  run (mkTreeNode "node") acts

/-- The sequence of status values written by the actions of an
interleaving, in order (the statuses a waiter can be woken by). -/
def writtenStatuses : List Action → List NodeStatus
  | [] => []
  | Action.setSt s :: rest => s :: writtenStatuses rest
  | Action.tickAct s :: rest => s :: writtenStatuses rest
  | _ :: rest => writtenStatuses rest

/-- The first terminal status of a sequence of written statuses, if
any. -/
def firstTerminal : List NodeStatus → Option NodeStatus
  | [] => none
  | s :: rest => if isTerminal s then some s else firstTerminal rest

/-- Modelled from the spec: `TreeNode::waitValidStatus()` (body not
under the source tree).  Spec 4.1: "Suspends the calling thread ...
until status becomes anything other than IDLE or RUNNING, i.e. until a
terminal value is observed; returns that terminal value", and spec 8:
"a blocked waiter observes exactly the first terminal
(SUCCESS/FAILURE/EXIT) status reached after it began waiting".
`current` is the status at the moment waiting begins and `later` the
sequence of statuses subsequently written by setStatus/executeTick
calls; `none` means the waiter stays blocked. -/
def waitValidStatus (current : NodeStatus) (later : List NodeStatus) :
    Option NodeStatus :=
  if isTerminal current then some current else firstTerminal later

/-- The kinds of micro-steps `executeTick` performs, used to state its
lock discipline. -/
inductive StepKind
  | callTick
  | updateStatusAndNotify
  | publishEvent
deriving DecidableEq, Repr

/-- A micro-step of `executeTick` together with whether the status lock
is held while it runs. -/
structure MicroStep where
  kind : StepKind
  lockHeld : Bool
deriving DecidableEq, Repr

/-- Modelled from the spec: the internal step sequence of
`TreeNode::executeTick()` (body not under the source tree).  Spec 4.1:
"acquire no lock while invoking the subclass tick() ...; on return,
atomically update the synchronized status field under the lock; wake
any thread blocked in waitValidStatus; then publish a transition event
... publication occurs outside the status lock". -/
def executeTickSteps : List MicroStep :=
  [⟨StepKind.callTick, false⟩,
   ⟨StepKind.updateStatusAndNotify, true⟩,
   ⟨StepKind.publishEvent, false⟩]

/-- The error a builder reports when it cannot produce a node
(spec section 7: "ConstructionError — a builder cannot produce a node
from the given parameters (missing/malformed key)"). -/
inductive ConstructionError
  | missingParameter (key : String)
deriving DecidableEq, Repr

/-- `NodeParameters` from `tree_node.h` line 151: a map from string
keys to string values, embedded as an association list with unique
keys. -/
def NodeParameters := List (String × String)

/-- A constructed node instance as produced by a builder: the name and
parameters it was built from (the concrete subclass state is out of
scope). -/
structure BuiltNode where
  name : String
  params : List (String × String)
deriving DecidableEq, Repr

/-- Modelled from the spec: a representative `NodeBuilder`
(`tree_node.h` line 215 declares only the `std::function` signature;
no builder body is under the source tree).  Spec 4.3 and scenario 4: a
builder requiring parameter key "threshold" signals a
ConstructionError when the key is missing and produces no node
instance; never a null/empty result in place of an error. -/
def thresholdBuilder (name : String) (params : List (String × String)) :
    Except ConstructionError BuiltNode :=
  match params.find? (fun kv => kv.1 == "threshold") with
  | none => Except.error (ConstructionError.missingParameter "threshold")
  | some _ => Except.ok ⟨name, params⟩

/-- The bus operations a callback may perform reentrantly during its
own invocation (spec 4.2). -/
inductive BusOp
  | subscribeOp
  | releaseOp (id : Nat)
deriving DecidableEq, Repr

/-- Apply one reentrant bus operation. -/
def applyBusOp (b : Signal) : BusOp → Signal
  | BusOp.subscribeOp => (b.subscribe).1
  | BusOp.releaseOp id => b.release id

/-- Apply a sequence of reentrant bus operations. -/
def applyBusOps (b : Signal) (ops : List BusOp) : Signal :=
  ops.foldl applyBusOp b

/-- The bus well-formedness invariant: every registered token is older
than the generation stamp, and the registry is strictly increasing in
token age — i.e. it lists the subscribers in subscription order. -/
def busInv (b : Signal) : Prop :=
  (∀ id ∈ b.subs, id < b.nextId) ∧ b.subs.Pairwise (· < ·)

/-- A released (or never-issued) handle: its token is absent from the
registry and older than the generation stamp, so no future subscription
can reuse it. -/
def released (b : Signal) (id : Nat) : Prop :=
  id ∉ b.subs ∧ id < b.nextId

theorem busInv_init : busInv Signal.init := by
  constructor
  · intro id hid
    simp [Signal.init] at hid
  · simp [Signal.init]

theorem busInv_applyBusOp (b : Signal) (op : BusOp) (h : busInv b) :
    busInv (applyBusOp b op) := by
  obtain ⟨h1, h2⟩ := h
  cases op with
  | subscribeOp =>
      refine ⟨?_, ?_⟩
      · intro id hid
        simp only [applyBusOp, Signal.subscribe, List.mem_append,
          List.mem_singleton] at hid
        rcases hid with hid | hid
        · exact Nat.lt_succ_of_lt (h1 id hid)
        · simp [applyBusOp, Signal.subscribe, hid]
      · simp only [applyBusOp, Signal.subscribe]
        rw [List.pairwise_append]
        refine ⟨h2, List.pairwise_singleton _ _, ?_⟩
        intro a ha c hc
        simp only [List.mem_singleton] at hc
        subst hc
        exact h1 a ha
  | releaseOp id =>
      refine ⟨?_, ?_⟩
      · intro x hx
        simp only [applyBusOp, Signal.release, List.mem_filter] at hx
        exact h1 x hx.1
      · exact List.Pairwise.filter _ h2

theorem busInv_applyBusOps (b : Signal) (ops : List BusOp)
    (h : busInv b) : busInv (applyBusOps b ops) := by
  induction ops generalizing b with
  | nil => exact h
  | cons op rest ih =>
      exact ih (applyBusOp b op) (busInv_applyBusOp b op h)

theorem released_applyBusOp (b : Signal) (op : BusOp) (id : Nat)
    (h : released b id) : released (applyBusOp b op) id := by
  obtain ⟨hmem, hlt⟩ := h
  cases op with
  | subscribeOp =>
      refine ⟨?_, Nat.lt_succ_of_lt hlt⟩
      simp only [applyBusOp, Signal.subscribe, List.mem_append,
        List.mem_singleton]
      intro hco
      rcases hco with hco | hco
      · exact hmem hco
      · exact Nat.lt_irrefl _ (hco ▸ hlt)
  | releaseOp j =>
      refine ⟨?_, hlt⟩
      simp only [applyBusOp, Signal.release, List.mem_filter]
      intro hco
      exact hmem hco.1

/-- The bus after one node-level step: setStatus/executeTick leave it
unchanged, subscribe and release act on it as the corresponding bus
operation. -/
theorem released_step (n : NodeState) (a : Action) (id : Nat)
    (h : released n.bus id) : released (step n a).1.bus id := by
  cases a with
  | setSt s => exact h
  | tickAct s => exact h
  | subscribeAct => exact released_applyBusOp n.bus BusOp.subscribeOp id h
  | releaseAct j => exact released_applyBusOp n.bus (BusOp.releaseOp j) id h

theorem recipients_step (n : NodeState) (a : Action) (e : Event)
    (h : e ∈ (step n a).2) : e.recipients = n.bus.subs := by
  cases a with
  | setSt s =>
      simp only [step, setStatus, Signal.publishRecipients,
        List.mem_singleton] at h
      subst h
      rfl
  | tickAct s =>
      simp only [step, executeTick, Signal.publishRecipients,
        List.mem_singleton] at h
      subst h
      rfl
  | subscribeAct => simp [step] at h
  | releaseAct j => simp [step] at h

theorem released_run (n : NodeState) (acts : List Action) (id : Nat)
    (h : released n.bus id) :
    ∀ e ∈ (run n acts).2, id ∉ e.recipients := by
  induction acts generalizing n with
  | nil =>
      intro e he
      simp [run] at he
  | cons a rest ih =>
      intro e he
      simp only [run, List.mem_append] at he
      rcases he with he | he
      · rw [recipients_step n a e he]
        exact h.1
      · exact ih (step n a).1 (released_step n a id h) e he

theorem firstTerminal_terminal (l : List NodeStatus) (v : NodeStatus)
    (h : firstTerminal l = some v) : isTerminal v = true := by
  induction l with
  | nil => simp [firstTerminal] at h
  | cons s rest ih =>
      by_cases hs : isTerminal s
      · simp only [firstTerminal, hs, if_pos] at h
        cases h
        exact hs
      · simp only [firstTerminal, hs, if_neg, Bool.false_eq_true,
          not_false_iff, ite_false] at h
        exact ih h

/-- Claim C10: `toStr(NodeStatus)` returns the distinct strings
"SUCCESS", "FAILURE", "RUNNING" and "IDLE" for the first four enum
values, but returns "Undefined" for EXIT even though EXIT is terminal;
consequently streaming an EXIT status prints "Undefined". -/
theorem toStr_status_values :
    toStrNodeStatus NodeStatus.IDLE = "IDLE"
  ∧ toStrNodeStatus NodeStatus.RUNNING = "RUNNING"
  ∧ toStrNodeStatus NodeStatus.SUCCESS = "SUCCESS"
  ∧ toStrNodeStatus NodeStatus.FAILURE = "FAILURE"
  ∧ List.Pairwise (· ≠ ·)
      [toStrNodeStatus NodeStatus.IDLE, toStrNodeStatus NodeStatus.RUNNING,
       toStrNodeStatus NodeStatus.SUCCESS, toStrNodeStatus NodeStatus.FAILURE]
  ∧ toStrNodeStatus NodeStatus.EXIT = "Undefined"
  ∧ isTerminal NodeStatus.EXIT = true
  ∧ (∀ os : String, streamNodeStatus os NodeStatus.EXIT = os ++ "Undefined") := by
  refine ⟨rfl, rfl, rfl, rfl, ?_, rfl, rfl, fun os => rfl⟩
  decide

/-- Claim C2: for every TreeNode at every point in time — i.e. in every
state reachable by any interleaving of the node operations — isHalted()
returns true if and only if status() equals IDLE. -/
theorem isHalted_iff_idle (n0 : NodeState) (acts : List Action) :
    (isHalted n0 = true ↔ n0.status = NodeStatus.IDLE)
  ∧ (isHalted (run n0 acts).1 = true ↔
      (run n0 acts).1.status = NodeStatus.IDLE) := by
  constructor <;> simp [isHalted]

/-- Claim C5: setStatus performs exactly the same update-notify-publish
sequence as the post-tick step of executeTick: both paths agree on the
stored status, on the wakeup-relevant state, and on the published
(previous, new) event, and executeTick returns the stored status. -/
theorem setStatus_executeTick_equiv (n : NodeState) (s : NodeStatus) :
    (executeTick n s).1 = (setStatus n s).1
  ∧ (executeTick n s).2.1 = (setStatus n s).2
  ∧ (executeTick n s).2.2 = (setStatus n s).1.status :=
  ⟨rfl, rfl, rfl⟩

/-- Claim C9: executeTick holds no lock while invoking the subclass
tick(); the status lock is acquired only after tick() returns, to
atomically update the status and wake waiters; and the notification-bus
publication is issued outside the status lock. -/
theorem executeTick_lock_discipline :
    ((executeTickSteps.all fun st =>
        !(st.kind == StepKind.callTick) || !st.lockHeld) = true)
  ∧ ((executeTickSteps.all fun st =>
        !(st.kind == StepKind.publishEvent) || !st.lockHeld) = true)
  ∧ ((executeTickSteps.all fun st =>
        !st.lockHeld || (st.kind == StepKind.updateStatusAndNotify)) = true)
  ∧ executeTickSteps.findIdx (fun st => st.kind == StepKind.callTick) <
      executeTickSteps.findIdx (fun st => st.lockHeld)
  ∧ executeTickSteps.findIdx (fun st => st.lockHeld) <
      executeTickSteps.findIdx (fun st => st.kind == StepKind.publishEvent)
  ∧ (((executeTickSteps.takeWhile fun st =>
        !(st.kind == StepKind.callTick)).all fun st => !st.lockHeld) = true) := by
  decide

/-- Claim C8: a TreeNode is constructed with status IDLE; after an
executeTick whose tick() returns RUNNING the status is RUNNING and a
waiter stays blocked; after a further executeTick whose tick() returns
SUCCESS the status is SUCCESS, the waiter wakes with SUCCESS, and a
subscriber records the transitions [(IDLE,RUNNING), (RUNNING,SUCCESS)]. -/
theorem lifecycle_scenario (nm : String) :
    (mkTreeNode nm).status = NodeStatus.IDLE
  ∧ (runFrom [Action.subscribeAct,
       Action.tickAct NodeStatus.RUNNING]).1.status = NodeStatus.RUNNING
  ∧ waitValidStatus NodeStatus.IDLE
      (writtenStatuses [Action.subscribeAct,
        Action.tickAct NodeStatus.RUNNING]) = none
  ∧ (runFrom [Action.subscribeAct, Action.tickAct NodeStatus.RUNNING,
       Action.tickAct NodeStatus.SUCCESS]).1.status = NodeStatus.SUCCESS
  ∧ waitValidStatus NodeStatus.IDLE
      (writtenStatuses [Action.subscribeAct,
        Action.tickAct NodeStatus.RUNNING,
        Action.tickAct NodeStatus.SUCCESS]) = some NodeStatus.SUCCESS
  ∧ ((runFrom [Action.subscribeAct, Action.tickAct NodeStatus.RUNNING,
       Action.tickAct NodeStatus.SUCCESS]).2.map
        fun e => (e.prev, e.newStatus)) =
      [(NodeStatus.IDLE, NodeStatus.RUNNING),
       (NodeStatus.RUNNING, NodeStatus.SUCCESS)]
  ∧ (((runFrom [Action.subscribeAct, Action.tickAct NodeStatus.RUNNING,
       Action.tickAct NodeStatus.SUCCESS]).2.all
        fun e => e.recipients.contains 0) = true) := by
  refine ⟨rfl, ?_, ?_, ?_, ?_, ?_, ?_⟩ <;> decide

/-- Claim C1: waitValidStatus never returns IDLE or RUNNING: it blocks
(returns none) while no terminal status has been written, and for any
interleaving of setStatus/executeTick calls a waiter that began while
the status was non-terminal returns exactly the first terminal status
written after it began waiting. -/
theorem waitValidStatus_terminal (cur : NodeStatus) (acts : List Action) :
    (∀ v, waitValidStatus cur (writtenStatuses acts) = some v →
       isTerminal v = true ∧ v ≠ NodeStatus.IDLE ∧ v ≠ NodeStatus.RUNNING)
  ∧ (isTerminal cur = false →
       waitValidStatus cur (writtenStatuses acts) =
         firstTerminal (writtenStatuses acts)) := by
  constructor
  · intro v hv
    have hterm : isTerminal v = true := by
      by_cases hc : isTerminal cur
      · simp only [waitValidStatus, hc, if_pos, Option.some.injEq] at hv
        subst hv
        exact hc
      · simp only [waitValidStatus, hc, Bool.false_eq_true, if_neg,
          not_false_iff, ite_false] at hv
        exact firstTerminal_terminal _ v hv
    refine ⟨hterm, ?_, ?_⟩ <;> intro he <;> subst he <;>
      simp [isTerminal] at hterm
  · intro hc
    simp [waitValidStatus, hc]

/-- Witness for C1 at a concrete interleaving: a waiter that starts at
IDLE and sees the writes [RUNNING, SUCCESS] returns SUCCESS, a terminal
value, and that value is the first terminal one written. -/
theorem waitValidStatus_terminal_witness :
    (isTerminal NodeStatus.SUCCESS = true ∧
       NodeStatus.SUCCESS ≠ NodeStatus.IDLE ∧
       NodeStatus.SUCCESS ≠ NodeStatus.RUNNING)
  ∧ waitValidStatus NodeStatus.IDLE
      (writtenStatuses [Action.setSt NodeStatus.RUNNING,
        Action.setSt NodeStatus.SUCCESS]) =
    firstTerminal (writtenStatuses [Action.setSt NodeStatus.RUNNING,
      Action.setSt NodeStatus.SUCCESS]) :=
  ⟨(waitValidStatus_terminal NodeStatus.IDLE
      [Action.setSt NodeStatus.RUNNING,
       Action.setSt NodeStatus.SUCCESS]).1 NodeStatus.SUCCESS (by decide),
   (waitValidStatus_terminal NodeStatus.IDLE
      [Action.setSt NodeStatus.RUNNING,
       Action.setSt NodeStatus.SUCCESS]).2 (by decide)⟩

/-- Claim C3: every setStatus/executeTick call that changes the status
issues exactly one publication whose (previous, new) pair matches the
transition; every subscriber registered at call time receives it, and a
subscriber whose handle was released before the call does not. -/
theorem statusChange_publishes_once (n : NodeState) (s : NodeStatus)
    (hchange : n.status ≠ s) :
    (step n (Action.setSt s)).2 = [⟨n.status, s, n.bus.subs⟩]
  ∧ (step n (Action.tickAct s)).2 = [⟨n.status, s, n.bus.subs⟩]
  ∧ (∀ id, id ∈ n.bus.subs →
       ∀ e ∈ (step n (Action.setSt s)).2, id ∈ e.recipients)
  ∧ (∀ id, ∀ e ∈ (step (step n (Action.releaseAct id)).1
       (Action.setSt s)).2, id ∉ e.recipients) := by
  refine ⟨rfl, rfl, ?_, ?_⟩
  · intro id hid e he
    simp only [step, setStatus, Signal.publishRecipients,
      List.mem_singleton] at he
    subst he
    exact hid
  · intro id e he
    simp only [step, setStatus, Signal.publishRecipients,
      List.mem_singleton] at he
    subst he
    simp [Signal.release, List.mem_filter]

/-- Witness for C3: a node holding one subscriber (token 0) at status
IDLE, where setStatus(SUCCESS) issues exactly the single publication
(IDLE, SUCCESS) delivered to token 0. -/
theorem statusChange_publishes_once_witness :
    (step (mkTreeNode "node") Action.subscribeAct).1.status ≠
      NodeStatus.SUCCESS
  ∧ (step (step (mkTreeNode "node") Action.subscribeAct).1
      (Action.setSt NodeStatus.SUCCESS)).2 =
      [⟨NodeStatus.IDLE, NodeStatus.SUCCESS, [0]⟩] :=
  ⟨by decide,
   ((statusChange_publishes_once
       (step (mkTreeNode "node") Action.subscribeAct).1
       NodeStatus.SUCCESS (by decide)).1).trans (by decide)⟩

/-- Claim C4: once a subscription handle is released (its token is out
of the registry and can never be reissued), no publication issued by
any subsequent interleaving of operations invokes its callback. -/
theorem released_never_invoked (n : NodeState) (id : Nat)
    (acts : List Action) (h : released n.bus id) :
    ((run n acts).2.all fun e => !(e.recipients.contains id)) = true := by
  rw [List.all_eq_true]
  intro e he
  have hmem := released_run n acts id h e he
  simpa using hmem

/-- Witness for C4, realizing scenario 5: subscribe, release the
handle, then force a status change; the resulting publication invokes
zero callbacks of the released token. -/
theorem released_never_invoked_witness :
    released (run (mkTreeNode "node")
      [Action.subscribeAct, Action.releaseAct 0]).1.bus 0
  ∧ (((run (run (mkTreeNode "node")
        [Action.subscribeAct, Action.releaseAct 0]).1
        [Action.setSt NodeStatus.SUCCESS]).2.all
          fun e => !(e.recipients.contains 0)) = true) :=
  ⟨⟨by decide, by decide⟩,
   released_never_invoked
     (run (mkTreeNode "node")
       [Action.subscribeAct, Action.releaseAct 0]).1 0
     [Action.setSt NodeStatus.SUCCESS] ⟨by decide, by decide⟩⟩

/-- Claim C6: a publication invokes exactly the currently-registered
callbacks, in subscription order (the registry is strictly ordered by
the generation stamps handed out at subscription time); and any
sequence of reentrant subscribe/release operations performed by a
callback during its own invocation leaves the bus well formed. -/
theorem publish_order_and_safety (b : Signal) (ops : List BusOp)
    (h : busInv b) :
    b.publishRecipients = b.subs
  ∧ List.Pairwise (· < ·) b.publishRecipients
  ∧ busInv (applyBusOps b ops) :=
  ⟨rfl, h.2, busInv_applyBusOps b ops h⟩

/-- Witness for C6 on a concrete bus of two subscribers, with a
callback that reentrantly subscribes and then releases token 0. -/
theorem publish_order_and_safety_witness :
    busInv ⟨2, [0, 1]⟩
  ∧ (Signal.publishRecipients ⟨2, [0, 1]⟩ = Signal.subs ⟨2, [0, 1]⟩
     ∧ List.Pairwise (· < ·) (Signal.publishRecipients ⟨2, [0, 1]⟩)
     ∧ busInv (applyBusOps ⟨2, [0, 1]⟩
         [BusOp.subscribeOp, BusOp.releaseOp 0])) :=
  ⟨⟨by decide, by decide⟩,
   publish_order_and_safety ⟨2, [0, 1]⟩
     [BusOp.subscribeOp, BusOp.releaseOp 0] ⟨by decide, by decide⟩⟩

/-- Claim C7: a builder invoked with a parameter map lacking a required
key reports a ConstructionError and produces no node instance; the
result is never a null/empty stand-in for an error. -/
theorem builder_missing_param_error (nm : String)
    (params : List (String × String))
    (h : params.find? (fun kv => kv.1 == "threshold") = none) :
    thresholdBuilder nm params =
      Except.error (ConstructionError.missingParameter "threshold")
  ∧ ∀ node, thresholdBuilder nm params ≠ Except.ok node := by
  have heq : thresholdBuilder nm params =
      Except.error (ConstructionError.missingParameter "threshold") := by
    unfold thresholdBuilder
    rw [h]
  refine ⟨heq, fun node hok => ?_⟩
  rw [heq] at hok
  exact Except.noConfusion hok

/-- Witness for C7, realizing scenario 4: a parameter map lacking the
"threshold" key makes the builder report the missing-parameter error. -/
theorem builder_missing_param_error_witness :
    (([("other", "1")] : List (String × String)).find?
        (fun kv => kv.1 == "threshold") = none)
  ∧ thresholdBuilder "AlwaysFail" [("other", "1")] =
      Except.error (ConstructionError.missingParameter "threshold") :=
  ⟨by decide,
   (builder_missing_param_error "AlwaysFail" [("other", "1")]
      (by decide)).1⟩

end BTCore
